import Mathlib

/-!
Shallow embedding of the `juce_native_macos_dialogs` module
(`src/juce_native_macos_dialogs.mm`).

The module is a thin adapter between JUCE data structures and native macOS
(AppKit) calls.  We embed:

* the JUCE `PopupMenu` item model (a tree: each item is a separator, an item
  with a submenu, or a regular item with text / itemID / enabled / ticked);
* the native `NSMenu` / `NSMenuItem` objects produced by
  `buildNSMenuFromJuceMenu`;
* the three popup entry points `showPopupMenu`, `showPopupMenuAt`,
  `showPopupMenuAtFixed`, with the file-scope variable `gSelectedMenuItemID`
  passed as explicit state and the modal user interaction supplied as an
  oracle (`Option NSMenuItem`: the action item the user selected, or `none`
  when the menu was dismissed);
* the pasteboard functions `copyDataToClipboard` / `fetchDataFromClipboard`
  with the general pasteboard modelled as a map from UTI strings to byte
  lists;
* `showTextInputDialog`, with the user interaction modelled as a list of
  text-change events followed by an OK/Cancel outcome.

`CGFloat` coordinates are modelled as rationals: the claims concern the exact
arithmetic `screenHeight - y` and `+ 10.0`, which double-precision arithmetic
performs exactly on the (integral, small) values involved.
-/

namespace JuceNativeMacDialogs

/-- A JUCE `PopupMenu::Item`, as consumed by `buildNSMenuFromJuceMenu` through
`PopupMenu::MenuItemIterator`: the fields read by the code are `isSeparator`,
`subMenu` (a pointer, possibly null, to another menu, i.e. a list of items),
`text`, `itemID`, `isEnabled` and `isTicked`. -/
inductive JMenuItem : Type where
  | mk (isSeparator : Bool) (subMenu : Option (List JMenuItem)) (text : String)
       (itemID : Int) (isEnabled : Bool) (isTicked : Bool) : JMenuItem

/-- Accessor `item.isSeparator`. -/
def JMenuItem.isSeparator : JMenuItem → Bool
  | .mk s _ _ _ _ _ => s

/-- Accessor `item.subMenu` (null pointer modelled as `none`). -/
def JMenuItem.subMenu : JMenuItem → Option (List JMenuItem)
  | .mk _ m _ _ _ _ => m

/-- Accessor `item.text`. -/
def JMenuItem.text : JMenuItem → String
  | .mk _ _ t _ _ _ => t

/-- Accessor `item.itemID`. -/
def JMenuItem.itemID : JMenuItem → Int
  | .mk _ _ _ i _ _ => i

/-- Accessor `item.isEnabled`. -/
def JMenuItem.isEnabled : JMenuItem → Bool
  | .mk _ _ _ _ e _ => e

/-- Accessor `item.isTicked`. -/
def JMenuItem.isTicked : JMenuItem → Bool
  | .mk _ _ _ _ _ t => t

/-- AppKit constant `NSControlStateValueOn`. -/
def NSControlStateValueOn : Int := 1

/-- AppKit constant `NSControlStateValueOff`. -/
def NSControlStateValueOff : Int := 0

mutual

/-- A native `NSMenu` as built by the module: its title, whether the small
menu font was set (`useSmallSize`), and its item list.  (The code also sets
`autoenablesItems: NO` on every menu it builds; that is a constant and is not
recorded.) -/
inductive NSMenu : Type where
  | mk (title : String) (smallFont : Bool) (items : List NSMenuItem) : NSMenu

/-- A native `NSMenuItem` in one of the three shapes the module creates:
`[NSMenuItem separatorItem]`; an item with a submenu (title and enabled flag
set, no action, default tag 0, default state Off); or a regular item with
action `menuItemSelected:`, tag, enabled flag and control state. -/
inductive NSMenuItem : Type where
  | separator : NSMenuItem
  | submenuItem (title : String) (enabled : Bool) (submenu : NSMenu) : NSMenuItem
  | actionItem (title : String) (tag : Int) (enabled : Bool) (state : Int) : NSMenuItem

end

/-- Accessor for `[nsMenu itemArray]`: the items of a built menu. -/
def NSMenu.items : NSMenu → List NSMenuItem
  | .mk _ _ its => its

/-- Accessor for `[nsMenu title]`. -/
def NSMenu.title : NSMenu → String
  | .mk t _ _ => t

/-- Accessor for `[item tag]`: separators and submenu items keep the `NSMenuItem` default
tag 0 (the code never calls `setTag:` on them); regular items carry the tag
set from `item.itemID`. -/
def NSMenuItem.tag : NSMenuItem → Int
  | .separator => 0
  | .submenuItem _ _ _ => 0
  | .actionItem _ t _ _ => t

/-- Whether the item has an action and a target (`menuItemSelected:`): true
exactly for the regular items; separators and submenu holders are created
with `action: nil`. -/
def NSMenuItem.hasAction : NSMenuItem → Bool
  | .actionItem _ _ _ _ => true
  | _ => false

/-- The loop body of `buildNSMenuFromJuceMenu` (lines 280–328): walk the JUCE
items in iterator order, emitting one native item per source item, and thread
the `outCheckedItem` out-parameter through the walk.  `tracking` models
`outCheckedItem != nullptr` and `acc` models the current value
`*outCheckedItem`; the recursive call for a submenu passes `nullptr`
(`tracking := false`), exactly as line 296 does.  Returns the native item
list together with the final `*outCheckedItem`. -/
def buildItems (tracking small : Bool) :
    List JMenuItem → Option NSMenuItem → List NSMenuItem × Option NSMenuItem
  | [], acc => ([], acc)
  | JMenuItem.mk isSep sub text id en ti :: rest, acc =>
    if isSep then
      let r := buildItems tracking small rest acc
      (NSMenuItem.separator :: r.1, r.2)
    else
      match sub with
      | some subItems =>
        let subBuilt := buildItems false small subItems none
        let subMenu := NSMenu.mk text small subBuilt.1
        let r := buildItems tracking small rest acc
        (NSMenuItem.submenuItem text en subMenu :: r.1, r.2)
      | none =>
        let nsItem := NSMenuItem.actionItem text id en
          (if ti then NSControlStateValueOn else NSControlStateValueOff)
        let acc2 := if ti && tracking && acc.isNone then some nsItem else acc
        let r := buildItems tracking small rest acc2
        (nsItem :: r.1, r.2)

/-- Function `buildNSMenuFromJuceMenu` (lines 261–332): allocates the `NSMenu` with the
given title (and the small menu font when `useSmallSize`), runs the item loop,
and returns the menu together with the final value of `*outCheckedItem`
(meaningful only when `tracking` is true, i.e. a non-null pointer was passed;
the caller initialises `*outCheckedItem` to null, hence `none` here). -/
def buildNSMenuFromJuceMenu (juceMenu : List JMenuItem) (tracking : Bool)
    (menuTitle : String) (useSmallSize : Bool) : NSMenu × Option NSMenuItem :=
  let r := buildItems tracking useSmallSize juceMenu none
  (NSMenu.mk menuTitle useSmallSize r.1, r.2)

/-- The `MenuItemTarget` handler `menuItemSelected:` (lines 248–252): stores the
sender's tag in the file-scope variable `gSelectedMenuItemID`.  The state is
the value of `gSelectedMenuItemID`; the handler replaces it by the tag. -/
def menuItemSelected (gSelectedMenuItemID : Int) (sender : NSMenuItem) : Int :=
  let _ := gSelectedMenuItemID
  sender.tag

/-- The modal menu run (`popUpMenuPositioningItem:atLocation:inView:` or
`popUpContextMenu:withEvent:forView:`): the user either selects an item that
has an action wired to the target — firing `menuItemSelected:` — or dismisses
the menu.  `sel` is the oracle for the user interaction: the item clicked, or
`none` for dismissal.  Separators and submenu-holder items carry no action,
so selecting them never fires the handler. -/
def popUpModal (gSelectedMenuItemID : Int) (sel : Option NSMenuItem) : Int :=
  match sel with
  | some it => if it.hasAction then menuItemSelected gSelectedMenuItemID it else gSelectedMenuItemID
  | none => gSelectedMenuItemID

/-- The observable effects of one popup invocation: the value returned, the
final value of `gSelectedMenuItemID`, the item passed to
`popUpMenuPositioningItem:` (or `none` for `nil` / the context-menu path),
the `NSPoint` passed as the location, and the `NSMenu` displayed. -/
structure PopupInvocation : Type where
  result : Int
  finalState : Int
  positioningItem : Option NSMenuItem
  location : ℚ × ℚ
  menuShown : NSMenu

/-- Function `NativeMacPopupMenu::showPopupMenu` (lines 335–398).  State-passing model:
`g` is the incoming value of `gSelectedMenuItemID`; `hasParentView` models
`parentComponent != nullptr` with a valid window handle; `mouseLocation` is
`[NSEvent mouseLocation]`; `sel` is the user-interaction oracle.  The code
resets `gSelectedMenuItemID` to 0, builds the menu with a non-null
`outCheckedItem`, shows it (via the context-menu path when a view exists,
else positioned on the checked item at the mouse location), and returns the
resulting `gSelectedMenuItemID`. -/
def showPopupMenu (g : Int) (menu : List JMenuItem) (hasParentView : Bool)
    (mouseLocation : ℚ × ℚ) (useSmallSize : Bool) (sel : Option NSMenuItem) :
    PopupInvocation :=
  let _ := g
  let g1 : Int := 0
  let built := buildNSMenuFromJuceMenu menu true "" useSmallSize
  let checkedItem := built.2
  let g2 := popUpModal g1 sel
  { result := g2
    finalState := g2
    positioningItem := if hasParentView then none else checkedItem
    location := mouseLocation
    menuShown := built.1 }

/-- Function `NativeMacPopupMenu::showPopupMenuAt` (lines 401–448).  `screenFrameHeight`
is `[[NSScreen mainScreen] frame].size.height`; `screenPosition` the JUCE
top-left-origin point.  The code resets `gSelectedMenuItemID`, builds the
menu tracking the checked item, converts
`yPos = screenFrame.size.height - screenPosition.getY()`, adds 10.0 when a
checked item was found, and pops the menu up positioned on that item. -/
def showPopupMenuAt (g : Int) (menu : List JMenuItem) (screenFrameHeight : ℚ)
    (screenPosition : Int × Int) (useSmallSize : Bool) (sel : Option NSMenuItem) :
    PopupInvocation :=
  let _ := g
  let g1 : Int := 0
  let built := buildNSMenuFromJuceMenu menu true "" useSmallSize
  let checkedItem := built.2
  let yPos : ℚ := screenFrameHeight - (screenPosition.2 : ℚ)
  let yPos := if checkedItem.isSome then yPos + 10 else yPos
  let nsPosition : ℚ × ℚ := ((screenPosition.1 : ℚ), yPos)
  let g2 := popUpModal g1 sel
  { result := g2
    finalState := g2
    positioningItem := checkedItem
    location := nsPosition
    menuShown := built.1 }

/-- Function `NativeMacPopupMenu::showPopupMenuAtFixed` (lines 451–490).  Identical to
`showPopupMenuAt` except that the menu is built with a null `outCheckedItem`
(no tracking), no 10.0 offset is ever added, and `nil` is passed as the
positioning item. -/
def showPopupMenuAtFixed (g : Int) (menu : List JMenuItem) (screenFrameHeight : ℚ)
    (screenPosition : Int × Int) (useSmallSize : Bool) (sel : Option NSMenuItem) :
    PopupInvocation :=
  let _ := g
  let g1 : Int := 0
  let built := buildNSMenuFromJuceMenu menu false "" useSmallSize
  let yPos : ℚ := screenFrameHeight - (screenPosition.2 : ℚ)
  let nsPosition : ℚ × ℚ := ((screenPosition.1 : ℚ), yPos)
  let g2 := popUpModal g1 sel
  { result := g2
    finalState := g2
    positioningItem := none
    location := nsPosition
    menuShown := built.1 }

/-- The general pasteboard, as the functions use it: a map from UTI strings to
the byte sequence stored under that type (`none` when the pasteboard holds no
data for the type). -/
def Pasteboard : Type := String → Option (List UInt8)

/-- Function `NativeMacPasteboard::copyDataToClipboard` (lines 188–199):
`declareTypes: @[pasteboardType] owner: nil` clears the pasteboard and
declares only `typeUTI` (with no data yet), then `setData:forType:` stores
the `size` bytes of `data` under `typeUTI`. -/
def copyDataToClipboard (pb : Pasteboard) (data : List UInt8) (typeUTI : String) :
    Pasteboard :=
  let _ := pb
  let declared : Pasteboard := fun _ => none
  fun t => if t = typeUTI then some data else declared t

/-- Function `NativeMacPasteboard::fetchDataFromClipboard` (lines 213–229): asks the
pasteboard for data of type `typeUTI`; when present, overwrites the whole
`MemoryBlock` with those bytes (`replaceAll`) and returns true; otherwise
returns false without touching the block.  The result pairs the returned
Bool with the block's contents after the call. -/
def fetchDataFromClipboard (pb : Pasteboard) (memoryBlock : List UInt8)
    (typeUTI : String) : Bool × List UInt8 :=
  match pb typeUTI with
  | some data => (true, data)
  | none => (false, memoryBlock)

/-- The `NSControlTextDidChangeNotification` observer installed by
`showTextInputDialog` when `maxLength > 0` (lines 52–66): after the field's
text changed to `text`, truncate it to `maxLength` characters when it is
longer (`substringToIndex: maxLength`; NSString UTF-16 lengths are modelled
as character counts). -/
def textFieldObserverStep (maxLength : Int) (text : String) : String :=
  if text.length > maxLength.toNat then text.take maxLength.toNat else text

/-- Function `NativeMacDialogs::showTextInputDialog` (lines 32–112), with the modal
user interaction modelled as the sequence `edits` of values the user typed
into the field (each firing the text-did-change notification) followed by
the outcome `okPressed` (`result == NSAlertFirstButtonReturn`).  The field is
initialised with `currentText` by a plain `setStringValue:` — no truncation;
the observer exists only when `maxLength > 0`.  On OK the function assigns
the field's text to `outText` and returns true; on cancel it returns false
leaving `outText` unchanged.  The returned pair is (return value, `outText`
after the call). -/
def showTextInputDialog (currentText : String) (maxLength : Int)
    (edits : List String) (okPressed : Bool) (outText : String) :
    Bool × String :=
  let input := currentText
  let observerInstalled := decide (maxLength > 0)
  let input := List.foldl
    (fun _ newText =>
      if observerInstalled then textFieldObserverStep maxLength newText else newText)
    input edits
  if okPressed then (true, input) else (false, outText)

/-- From the claims: a "top-level ticked non-separator, non-submenu item" —
an item taken by the regular branch of the build loop with `isTicked` set. -/
def isTickedRegularItem (it : JMenuItem) : Bool :=
  !it.isSeparator && it.subMenu.isNone && it.isTicked

/-- The native action item the regular branch (lines 308–318) creates for a
JUCE item: title from `text`, tag from `itemID`, enabled from `isEnabled`,
state On/Off from `isTicked`. -/
def asNSActionItem (it : JMenuItem) : NSMenuItem :=
  NSMenuItem.actionItem it.text it.itemID it.isEnabled
    (if it.isTicked then NSControlStateValueOn else NSControlStateValueOff)

/-- Total number of JUCE items in a menu, counting recursively through all
submenus.  The dispatch mirrors the build loop's: an item is a separator, or
else an item with a submenu, or else a regular item (a separator's `subMenu`
field is never consulted). -/
def jMenuTotalItemCount : List JMenuItem → Nat
  | [] => 0
  | JMenuItem.mk isSep sub _ _ _ _ :: rest =>
    (1 + if isSep then 0
         else match sub with
              | some subItems => jMenuTotalItemCount subItems
              | none => 0) + jMenuTotalItemCount rest

/-- Total number of native items in a list, counting recursively through all
submenus. -/
def nsItemsTotalCount : List NSMenuItem → Nat
  | [] => 0
  | NSMenuItem.separator :: rest => 1 + nsItemsTotalCount rest
  | NSMenuItem.submenuItem _ _ (NSMenu.mk _ _ subItems) :: rest =>
    (1 + nsItemsTotalCount subItems) + nsItemsTotalCount rest
  | NSMenuItem.actionItem _ _ _ _ :: rest => 1 + nsItemsTotalCount rest

/-- Total number of native items in a built menu, all levels included. -/
def NSMenu.totalItemCount : NSMenu → Nat
  | .mk _ _ its => nsItemsTotalCount its

/-- Stated from the claim (C1): the native item a JUCE item must become.  A
separator becomes the native separator; an item with a submenu becomes a
native item with the same title and enabled flag carrying the recursively
converted submenu; every other item becomes a native item whose title is the
item's text, whose tag is its itemID, whose enabled flag is `isEnabled`, and
whose check state is `NSControlStateValueOn` exactly when `isTicked`. -/
inductive ItemCorresponds (useSmallSize : Bool) : JMenuItem → NSMenuItem → Prop where
  | separator (sub : Option (List JMenuItem)) (text : String) (id : Int) (en ti : Bool) :
      ItemCorresponds useSmallSize (JMenuItem.mk true sub text id en ti)
        NSMenuItem.separator
  | withSubmenu (subItems : List JMenuItem) (text : String) (id : Int) (en ti : Bool) :
      ItemCorresponds useSmallSize (JMenuItem.mk false (some subItems) text id en ti)
        (NSMenuItem.submenuItem text en
          (buildNSMenuFromJuceMenu subItems false text useSmallSize).1)
  | regular (text : String) (id : Int) (en ti : Bool) (state : Int)
      (hstate : state = NSControlStateValueOn ↔ ti = true) :
      ItemCorresponds useSmallSize (JMenuItem.mk false none text id en ti)
        (NSMenuItem.actionItem text id en state)

/-- Unfolding `buildItems` at the empty list. -/
theorem buildItems_nil (tr s : Bool) (acc : Option NSMenuItem) :
    buildItems tr s [] acc = ([], acc) := by
  rw [buildItems.eq_def]

/-- Unfolding `buildItems` at a separator item (line 286–289). -/
theorem buildItems_cons_separator (tr s : Bool) (sub : Option (List JMenuItem))
    (text : String) (id : Int) (en ti : Bool) (rest : List JMenuItem)
    (acc : Option NSMenuItem) :
    buildItems tr s (JMenuItem.mk true sub text id en ti :: rest) acc
      = (NSMenuItem.separator :: (buildItems tr s rest acc).1,
         (buildItems tr s rest acc).2) := by
  rw [buildItems.eq_def]; rfl

/-- Unfolding `buildItems` at an item with a submenu (lines 290–304): the
submenu is built with a null out-parameter. -/
theorem buildItems_cons_submenu (tr s : Bool) (subItems : List JMenuItem)
    (text : String) (id : Int) (en ti : Bool) (rest : List JMenuItem)
    (acc : Option NSMenuItem) :
    buildItems tr s (JMenuItem.mk false (some subItems) text id en ti :: rest) acc
      = (NSMenuItem.submenuItem text en
            (NSMenu.mk text s (buildItems false s subItems none).1)
            :: (buildItems tr s rest acc).1,
         (buildItems tr s rest acc).2) := by
  rw [buildItems.eq_def]; rfl

/-- Unfolding `buildItems` at a regular item (lines 305–327). -/
theorem buildItems_cons_regular (tr s : Bool) (text : String) (id : Int)
    (en ti : Bool) (rest : List JMenuItem) (acc : Option NSMenuItem) :
    buildItems tr s (JMenuItem.mk false none text id en ti :: rest) acc
      = (NSMenuItem.actionItem text id en
            (if ti then NSControlStateValueOn else NSControlStateValueOff)
            :: (buildItems tr s rest
                  (if ti && tr && acc.isNone
                   then some (NSMenuItem.actionItem text id en
                          (if ti then NSControlStateValueOn else NSControlStateValueOff))
                   else acc)).1,
         (buildItems tr s rest
            (if ti && tr && acc.isNone
             then some (NSMenuItem.actionItem text id en
                    (if ti then NSControlStateValueOn else NSControlStateValueOff))
             else acc)).2) := by
  rw [buildItems.eq_def]; rfl

/-- The checked-item output of `buildNSMenuFromJuceMenu` is the out-parameter
value left by its item loop. -/
theorem buildNSMenuFromJuceMenu_snd (m : List JMenuItem) (tr : Bool)
    (t : String) (s : Bool) :
    (buildNSMenuFromJuceMenu m tr t s).2 = (buildItems tr s m none).2 := rfl

/-- The item list of the menu returned by `buildNSMenuFromJuceMenu` is the
list produced by its item loop. -/
theorem buildNSMenuFromJuceMenu_items (m : List JMenuItem) (tr : Bool)
    (t : String) (s : Bool) :
    (buildNSMenuFromJuceMenu m tr t s).1.items = (buildItems tr s m none).1 := rfl

/-- With a null `outCheckedItem` (`tracking = false`), the build loop never
writes the out-parameter. -/
theorem buildItems_snd_no_tracking (m : List JMenuItem) (s : Bool)
    (acc : Option NSMenuItem) : (buildItems false s m acc).2 = acc := by
  induction m generalizing acc with
  | nil => simp [buildItems_nil]
  | cons hd rest ih =>
    obtain ⟨isSep, sub, text, id, en, ti⟩ := hd
    cases isSep with
    | true => simpa [buildItems_cons_separator] using ih acc
    | false =>
      cases sub with
      | some subItems => simpa [buildItems_cons_submenu] using ih acc
      | none => simpa [buildItems_cons_regular] using ih acc

/-- Once the out-parameter holds an item, the rest of the loop leaves it
unchanged (`*outCheckedItem == nullptr` fails). -/
theorem buildItems_snd_of_some (m : List JMenuItem) (tr s : Bool) (c : NSMenuItem) :
    (buildItems tr s m (some c)).2 = some c := by
  induction m with
  | nil => simp [buildItems_nil]
  | cons hd rest ih =>
    obtain ⟨isSep, sub, text, id, en, ti⟩ := hd
    cases isSep with
    | true => simpa [buildItems_cons_separator] using ih
    | false =>
      cases sub with
      | some subItems => simpa [buildItems_cons_submenu] using ih
      | none => simpa [buildItems_cons_regular] using ih

/-- With tracking on and the out-parameter still null, the build loop records
exactly the first top-level ticked regular item, converted to its native
form. -/
theorem buildItems_snd_tracking (m : List JMenuItem) (s : Bool) :
    (buildItems true s m none).2 = (m.find? isTickedRegularItem).map asNSActionItem := by
  induction m with
  | nil => simp [buildItems_nil]
  | cons hd rest ih =>
    obtain ⟨isSep, sub, text, id, en, ti⟩ := hd
    cases isSep with
    | true =>
      rw [List.find?_cons_of_neg]
      · simpa [buildItems_cons_separator] using ih
      · simp [isTickedRegularItem, JMenuItem.isSeparator]
    | false =>
      cases sub with
      | some subItems =>
        rw [List.find?_cons_of_neg]
        · simpa [buildItems_cons_submenu] using ih
        · simp [isTickedRegularItem, JMenuItem.isSeparator, JMenuItem.subMenu]
      | none =>
        cases ti with
        | true =>
          rw [List.find?_cons_of_pos]
          · simp [buildItems_cons_regular, buildItems_snd_of_some, asNSActionItem,
              JMenuItem.text, JMenuItem.itemID, JMenuItem.isEnabled, JMenuItem.isTicked]
          · simp [isTickedRegularItem, JMenuItem.isSeparator, JMenuItem.subMenu,
              JMenuItem.isTicked]
        | false =>
          rw [List.find?_cons_of_neg]
          · simpa [buildItems_cons_regular] using ih
          · simp [isTickedRegularItem, JMenuItem.isTicked]

/-- Whatever the loop leaves in the out-parameter is either what was already
there or one of the native items the loop itself appended to this menu. -/
theorem buildItems_snd_mem (m : List JMenuItem) (tr s : Bool)
    (acc : Option NSMenuItem) (c : NSMenuItem)
    (h : (buildItems tr s m acc).2 = some c) :
    acc = some c ∨ c ∈ (buildItems tr s m acc).1 := by
  induction m generalizing acc with
  | nil =>
    left
    simpa [buildItems_nil] using h
  | cons hd rest ih =>
    obtain ⟨isSep, sub, text, id, en, ti⟩ := hd
    cases isSep with
    | true =>
      rw [buildItems_cons_separator] at h ⊢
      rcases ih acc h with hacc | hmem
      · exact Or.inl hacc
      · exact Or.inr (List.mem_cons_of_mem _ hmem)
    | false =>
      cases sub with
      | some subItems =>
        rw [buildItems_cons_submenu] at h ⊢
        rcases ih acc h with hacc | hmem
        · exact Or.inl hacc
        · exact Or.inr (List.mem_cons_of_mem _ hmem)
      | none =>
        rw [buildItems_cons_regular] at h ⊢
        rcases ih _ h with hacc | hmem
        · by_cases hcond : (ti && tr && acc.isNone) = true
          · rw [if_pos hcond] at hacc
            right
            rw [Option.some.injEq] at hacc
            exact hacc ▸ List.mem_cons_self _ _
          · rw [if_neg hcond] at hacc
            exact Or.inl hacc
        · exact Or.inr (List.mem_cons_of_mem _ hmem)

/-- Unfolding `jMenuTotalItemCount` at the empty list. -/
theorem jMenuTotalItemCount_nil : jMenuTotalItemCount [] = 0 := by
  rw [jMenuTotalItemCount.eq_def]

/-- Unfolding `jMenuTotalItemCount` at a separator. -/
theorem jMenuTotalItemCount_cons_separator (sub : Option (List JMenuItem))
    (text : String) (id : Int) (en ti : Bool) (rest : List JMenuItem) :
    jMenuTotalItemCount (JMenuItem.mk true sub text id en ti :: rest)
      = 1 + jMenuTotalItemCount rest := by
  rw [jMenuTotalItemCount.eq_def]; rfl

/-- Unfolding `jMenuTotalItemCount` at a non-separator item without a
submenu. -/
theorem jMenuTotalItemCount_cons_none (text : String) (id : Int)
    (en ti : Bool) (rest : List JMenuItem) :
    jMenuTotalItemCount (JMenuItem.mk false none text id en ti :: rest)
      = 1 + jMenuTotalItemCount rest := by
  rw [jMenuTotalItemCount.eq_def]; rfl

/-- Unfolding `jMenuTotalItemCount` at a non-separator item with a submenu. -/
theorem jMenuTotalItemCount_cons_some (subItems : List JMenuItem)
    (text : String) (id : Int) (en ti : Bool) (rest : List JMenuItem) :
    jMenuTotalItemCount (JMenuItem.mk false (some subItems) text id en ti :: rest)
      = (1 + jMenuTotalItemCount subItems) + jMenuTotalItemCount rest := by
  rw [jMenuTotalItemCount.eq_def]; rfl

/-- Unfolding `nsItemsTotalCount` at the empty list. -/
theorem nsItemsTotalCount_nil : nsItemsTotalCount [] = 0 := by
  rw [nsItemsTotalCount.eq_def]

/-- Unfolding `nsItemsTotalCount` at a separator. -/
theorem nsItemsTotalCount_cons_separator (rest : List NSMenuItem) :
    nsItemsTotalCount (NSMenuItem.separator :: rest) = 1 + nsItemsTotalCount rest := by
  rw [nsItemsTotalCount.eq_def]

/-- Unfolding `nsItemsTotalCount` at a submenu item. -/
theorem nsItemsTotalCount_cons_submenu (title : String) (en : Bool)
    (subTitle : String) (small : Bool) (subItems : List NSMenuItem)
    (rest : List NSMenuItem) :
    nsItemsTotalCount
        (NSMenuItem.submenuItem title en (NSMenu.mk subTitle small subItems) :: rest)
      = (1 + nsItemsTotalCount subItems) + nsItemsTotalCount rest := by
  rw [nsItemsTotalCount.eq_def]

/-- Unfolding `nsItemsTotalCount` at an action item. -/
theorem nsItemsTotalCount_cons_action (title : String) (tag : Int) (en : Bool)
    (state : Int) (rest : List NSMenuItem) :
    nsItemsTotalCount (NSMenuItem.actionItem title tag en state :: rest)
      = 1 + nsItemsTotalCount rest := by
  rw [nsItemsTotalCount.eq_def]

/-- The items the build loop emits correspond (in the sense of
`ItemCorresponds`) one-to-one and in order to the source items, for any
tracking mode and incoming out-parameter value. -/
theorem buildItems_correspond (tr s : Bool) (m : List JMenuItem)
    (acc : Option NSMenuItem) :
    List.Forall₂ (ItemCorresponds s) m (buildItems tr s m acc).1 := by
  induction tr, s, m, acc using buildItems.induct with
  | case1 tr s acc =>
    rw [buildItems_nil]
    exact List.Forall₂.nil
  | case2 tr s sub text id en ti rest acc ih =>
    rw [buildItems_cons_separator]
    exact List.Forall₂.cons (ItemCorresponds.separator sub text id en ti) ih
  | case3 tr s isSep text id en ti rest acc hsep subItems ihsub ihrest =>
    rw [Bool.not_eq_true] at hsep
    subst hsep
    rw [buildItems_cons_submenu]
    exact List.Forall₂.cons (ItemCorresponds.withSubmenu subItems text id en ti) ihrest
  | case4 tr s isSep text id en ti rest acc hsep nsItem acc2 ih =>
    rw [Bool.not_eq_true] at hsep
    subst hsep
    rw [buildItems_cons_regular]
    refine List.Forall₂.cons (ItemCorresponds.regular text id en ti _ ?_) ?_
    · cases ti <;> simp [NSControlStateValueOn, NSControlStateValueOff]
    · exact ih

/-- The build loop emits exactly one native item per source item, at every
level of the tree: total counts agree. -/
theorem nsItemsTotalCount_buildItems (tr s : Bool) (m : List JMenuItem)
    (acc : Option NSMenuItem) :
    nsItemsTotalCount (buildItems tr s m acc).1 = jMenuTotalItemCount m := by
  induction tr, s, m, acc using buildItems.induct with
  | case1 tr s acc =>
    rw [buildItems_nil, nsItemsTotalCount_nil, jMenuTotalItemCount_nil]
  | case2 tr s sub text id en ti rest acc ih =>
    rw [buildItems_cons_separator, nsItemsTotalCount_cons_separator, ih,
      jMenuTotalItemCount_cons_separator]
  | case3 tr s isSep text id en ti rest acc hsep subItems ihsub ihrest =>
    rw [Bool.not_eq_true] at hsep
    subst hsep
    rw [buildItems_cons_submenu, nsItemsTotalCount_cons_submenu, ihsub, ihrest,
      jMenuTotalItemCount_cons_some]
  | case4 tr s isSep text id en ti rest acc hsep nsItem acc2 ih =>
    rw [Bool.not_eq_true] at hsep
    subst hsep
    rw [buildItems_cons_regular, nsItemsTotalCount_cons_action,
      jMenuTotalItemCount_cons_none]
    have ih2 : nsItemsTotalCount
        (buildItems tr s rest
          (if (ti && tr && acc.isNone) = true
           then some (NSMenuItem.actionItem text id en
                  (if ti = true then NSControlStateValueOn else NSControlStateValueOff))
           else acc)).1 = jMenuTotalItemCount rest := by
      simpa [nsItem, acc2, dif_eq_if] using ih
    rw [ih2]

/-- C1: for every JUCE PopupMenu, `buildNSMenuFromJuceMenu` produces a native
menu whose items correspond one-to-one and in order to the source menu's
items: a separator item becomes a native separator; an item with a submenu
becomes a native item carrying the recursively converted submenu, with the
same title and enabled flag; every other item becomes a native item whose
title equals the item's text, whose tag equals its itemID, whose enabled flag
equals `isEnabled`, and whose check state is On exactly when `isTicked`. -/
theorem C1_build_items_correspond (menu : List JMenuItem) (tracking : Bool)
    (menuTitle : String) (useSmallSize : Bool) :
    List.Forall₂ (ItemCorresponds useSmallSize) menu
      (buildNSMenuFromJuceMenu menu tracking menuTitle useSmallSize).1.items :=
  buildItems_correspond tracking useSmallSize menu none

/-- C2: each of `showPopupMenu`, `showPopupMenuAt` and `showPopupMenuAtFixed`
returns the tag of the native item the user selected (the tag stores the
JUCE itemID), and returns the sentinel 0 when the menu was dismissed without
a selection. -/
theorem C2_popup_returns_tag_or_sentinel (g : Int) (menu : List JMenuItem)
    (hasParentView : Bool) (mouseLocation : ℚ × ℚ) (screenFrameHeight : ℚ)
    (screenPosition : Int × Int) (useSmallSize : Bool) (sel : Option NSMenuItem) :
    (sel = none →
        (showPopupMenu g menu hasParentView mouseLocation useSmallSize sel).result = 0
      ∧ (showPopupMenuAt g menu screenFrameHeight screenPosition useSmallSize sel).result = 0
      ∧ (showPopupMenuAtFixed g menu screenFrameHeight screenPosition useSmallSize sel).result = 0)
  ∧ (∀ (title : String) (tag : Int) (en : Bool) (state : Int),
      sel = some (NSMenuItem.actionItem title tag en state) →
        (showPopupMenu g menu hasParentView mouseLocation useSmallSize sel).result = tag
      ∧ (showPopupMenuAt g menu screenFrameHeight screenPosition useSmallSize sel).result = tag
      ∧ (showPopupMenuAtFixed g menu screenFrameHeight screenPosition useSmallSize sel).result = tag) := by
  constructor
  · rintro rfl
    exact ⟨rfl, rfl, rfl⟩
  · rintro title tag en state rfl
    exact ⟨rfl, rfl, rfl⟩

/-- Witness for C2: selecting the item tagged 42 returns 42; dismissing the
menu returns 0. -/
theorem C2_popup_returns_tag_or_sentinel_witness :
    (showPopupMenu 7 [JMenuItem.mk false none "Item" 42 true false] false (0, 0) false
        (some (NSMenuItem.actionItem "Item" 42 true 1))).result = 42
  ∧ (showPopupMenuAtFixed 7 [JMenuItem.mk false none "Item" 42 true false] 800 (3, 4) false
        none).result = 0 :=
  ⟨((C2_popup_returns_tag_or_sentinel 7 [JMenuItem.mk false none "Item" 42 true false]
      false (0, 0) 800 (3, 4) false
      (some (NSMenuItem.actionItem "Item" 42 true 1))).2 "Item" 42 true 1 rfl).1,
   ((C2_popup_returns_tag_or_sentinel 7 [JMenuItem.mk false none "Item" 42 true false]
      false (0, 0) 800 (3, 4) false none).1 rfl).2.2⟩

/-- C3: both `showPopupMenuAt` and `showPopupMenuAtFixed` pass the x
coordinate through unchanged and convert the JUCE top-left-origin y
coordinate to the macOS bottom-left-origin value `screenHeight - y`; the
only further adjustment is `showPopupMenuAt`'s checked-item offset (C4),
which `showPopupMenuAtFixed` never applies. -/
theorem C3_coordinate_flip (g : Int) (menu : List JMenuItem)
    (screenFrameHeight : ℚ) (screenPosition : Int × Int) (useSmallSize : Bool)
    (sel : Option NSMenuItem) :
    (showPopupMenuAt g menu screenFrameHeight screenPosition useSmallSize sel).location
        = ((screenPosition.1 : ℚ),
           (screenFrameHeight - (screenPosition.2 : ℚ))
             + (if (showPopupMenuAt g menu screenFrameHeight screenPosition
                      useSmallSize sel).positioningItem.isSome
                then 10 else 0))
  ∧ (showPopupMenuAtFixed g menu screenFrameHeight screenPosition useSmallSize sel).location
        = ((screenPosition.1 : ℚ), screenFrameHeight - (screenPosition.2 : ℚ)) := by
  have hoff : ∀ (b : Bool) (q : ℚ), (if b then q + 10 else q) = q + (if b then 10 else 0) := by
    intro b q
    cases b <;> simp
  constructor
  · simp only [showPopupMenuAt]
    rw [hoff]
  · rfl

/-- C4: `showPopupMenuAt` positions the menu on the native form of the first
top-level ticked non-separator, non-submenu item and adds 10.0 to the
converted y exactly when such an item exists; `showPopupMenuAtFixed` always
positions with `nil` and never adds the offset. -/
theorem C4_checked_item_positioning (g : Int) (menu : List JMenuItem)
    (screenFrameHeight : ℚ) (screenPosition : Int × Int) (useSmallSize : Bool)
    (sel : Option NSMenuItem) :
    ((showPopupMenuAt g menu screenFrameHeight screenPosition useSmallSize sel).positioningItem
        = (menu.find? isTickedRegularItem).map asNSActionItem)
  ∧ ((showPopupMenuAt g menu screenFrameHeight screenPosition useSmallSize sel).location.2
        = (screenFrameHeight - (screenPosition.2 : ℚ))
            + (if (menu.find? isTickedRegularItem).isSome then 10 else 0))
  ∧ ((menu.find? isTickedRegularItem).isSome ↔ ∃ it ∈ menu, isTickedRegularItem it = true)
  ∧ ((showPopupMenuAtFixed g menu screenFrameHeight screenPosition useSmallSize sel).positioningItem
        = none)
  ∧ ((showPopupMenuAtFixed g menu screenFrameHeight screenPosition useSmallSize sel).location.2
        = screenFrameHeight - (screenPosition.2 : ℚ)) := by
  have hsnd : (buildNSMenuFromJuceMenu menu true "" useSmallSize).2
      = (menu.find? isTickedRegularItem).map asNSActionItem :=
    buildItems_snd_tracking menu useSmallSize
  refine ⟨hsnd, ?_, List.find?_isSome, rfl, rfl⟩
  simp only [showPopupMenuAt]
  rw [hsnd]
  cases h : menu.find? isTickedRegularItem <;> simp

/-- C5: the checked item recorded for native positioning is never an item
located inside a submenu: whenever `buildNSMenuFromJuceMenu` (called with a
non-null `outCheckedItem`, initialised to null) reports a checked item, that
item is one of the top-level items of the returned menu, and it is the
native form of a top-level ticked regular item of the source menu. -/
theorem C5_checked_item_is_top_level (menu : List JMenuItem) (menuTitle : String)
    (useSmallSize : Bool) (c : NSMenuItem)
    (h : (buildNSMenuFromJuceMenu menu true menuTitle useSmallSize).2 = some c) :
    c ∈ (buildNSMenuFromJuceMenu menu true menuTitle useSmallSize).1.items
  ∧ ∃ it ∈ menu, isTickedRegularItem it = true ∧ c = asNSActionItem it := by
  have h' : (buildItems true useSmallSize menu none).2 = some c := h
  constructor
  · rcases buildItems_snd_mem menu true useSmallSize none c h' with hacc | hmem
    · exact absurd hacc (by simp)
    · exact hmem
  · have hfind : (menu.find? isTickedRegularItem).map asNSActionItem = some c := by
      rw [← buildItems_snd_tracking menu useSmallSize]
      exact h'
    rcases Option.map_eq_some'.mp hfind with ⟨it, hit, hconv⟩
    exact ⟨it, List.mem_of_find?_eq_some hit, List.find?_some hit, hconv.symm⟩

/-- Witness for C5: in a menu with a ticked item inside a submenu and a
ticked top-level item, the recorded checked item is the top-level one. -/
theorem C5_checked_item_is_top_level_witness :
    (buildNSMenuFromJuceMenu
        [JMenuItem.mk false (some [JMenuItem.mk false none "Inner" 7 true true]) "Sub" 0 true false,
         JMenuItem.mk false none "Outer" 5 true true] true "" false).2
      = some (NSMenuItem.actionItem "Outer" 5 true 1)
  ∧ (NSMenuItem.actionItem "Outer" 5 true 1)
      ∈ (buildNSMenuFromJuceMenu
          [JMenuItem.mk false (some [JMenuItem.mk false none "Inner" 7 true true]) "Sub" 0 true false,
           JMenuItem.mk false none "Outer" 5 true true] true "" false).1.items
  ∧ ∃ it ∈ [JMenuItem.mk false (some [JMenuItem.mk false none "Inner" 7 true true]) "Sub" 0 true false,
            JMenuItem.mk false none "Outer" 5 true true],
      isTickedRegularItem it = true
        ∧ NSMenuItem.actionItem "Outer" 5 true 1 = asNSActionItem it := by
  have hsnd : (buildNSMenuFromJuceMenu
      [JMenuItem.mk false (some [JMenuItem.mk false none "Inner" 7 true true]) "Sub" 0 true false,
       JMenuItem.mk false none "Outer" 5 true true] true "" false).2
      = some (NSMenuItem.actionItem "Outer" 5 true 1) := by
    rw [buildNSMenuFromJuceMenu_snd]
    simp [buildItems_cons_submenu, buildItems_cons_regular, buildItems_nil,
      NSControlStateValueOn]
  have hrest := C5_checked_item_is_top_level
    [JMenuItem.mk false (some [JMenuItem.mk false none "Inner" 7 true true]) "Sub" 0 true false,
     JMenuItem.mk false none "Outer" 5 true true] "" false
    (NSMenuItem.actionItem "Outer" 5 true 1) hsnd
  exact ⟨hsnd, hrest.1, hrest.2⟩

/-- C6: clipboard transfer preserves bytes exactly: after
`copyDataToClipboard` places the bytes on the general pasteboard under type
`typeUTI`, `fetchDataFromClipboard` with the same UTI returns true and leaves
the block holding exactly those bytes. -/
theorem C6_clipboard_roundtrip (pb : Pasteboard) (data : List UInt8)
    (typeUTI : String) (memoryBlock : List UInt8) :
    fetchDataFromClipboard (copyDataToClipboard pb data typeUTI) memoryBlock typeUTI
      = (true, data) := by
  simp [fetchDataFromClipboard, copyDataToClipboard]

/-- C7: the popup operations keep no state observable across calls: the
returned value is independent of the value of `gSelectedMenuItemID` left by
any earlier call (each entry point resets it to 0 before displaying; in
particular a dismissed menu yields 0 whatever the previous value was). -/
theorem C7_no_observable_state_across_calls (g1 g2 : Int) (menu : List JMenuItem)
    (hasParentView : Bool) (mouseLocation : ℚ × ℚ) (screenFrameHeight : ℚ)
    (screenPosition : Int × Int) (useSmallSize : Bool) (sel : Option NSMenuItem) :
    ((showPopupMenu g1 menu hasParentView mouseLocation useSmallSize sel).result
        = (showPopupMenu g2 menu hasParentView mouseLocation useSmallSize sel).result)
  ∧ ((showPopupMenuAt g1 menu screenFrameHeight screenPosition useSmallSize sel).result
        = (showPopupMenuAt g2 menu screenFrameHeight screenPosition useSmallSize sel).result)
  ∧ ((showPopupMenuAtFixed g1 menu screenFrameHeight screenPosition useSmallSize sel).result
        = (showPopupMenuAtFixed g2 menu screenFrameHeight screenPosition useSmallSize sel).result)
  ∧ ((showPopupMenu g1 menu hasParentView mouseLocation useSmallSize none).result = 0)
  ∧ ((showPopupMenuAt g1 menu screenFrameHeight screenPosition useSmallSize none).result = 0)
  ∧ ((showPopupMenuAtFixed g1 menu screenFrameHeight screenPosition useSmallSize none).result = 0) :=
  ⟨rfl, rfl, rfl, rfl, rfl, rfl⟩

/-- C8: the menu conversion is total — `buildNSMenuFromJuceMenu` is accepted
as a terminating function by well-founded recursion on the menu tree,
recursing only into strict submenu subtrees — and it makes a single pass
over the whole menu: the built native menu has exactly one item per source
item at every level, and each popup entry point displays the result of one
such build. -/
theorem C8_build_total_single_pass (menu : List JMenuItem) (tracking : Bool)
    (menuTitle : String) (useSmallSize : Bool) (g : Int) (hasParentView : Bool)
    (mouseLocation : ℚ × ℚ) (screenFrameHeight : ℚ) (screenPosition : Int × Int)
    (sel : Option NSMenuItem) :
    ((buildNSMenuFromJuceMenu menu tracking menuTitle useSmallSize).1.totalItemCount
        = jMenuTotalItemCount menu)
  ∧ ((showPopupMenu g menu hasParentView mouseLocation useSmallSize sel).menuShown
        = (buildNSMenuFromJuceMenu menu true "" useSmallSize).1)
  ∧ ((showPopupMenuAt g menu screenFrameHeight screenPosition useSmallSize sel).menuShown
        = (buildNSMenuFromJuceMenu menu true "" useSmallSize).1)
  ∧ ((showPopupMenuAtFixed g menu screenFrameHeight screenPosition useSmallSize sel).menuShown
        = (buildNSMenuFromJuceMenu menu false "" useSmallSize).1) :=
  ⟨nsItemsTotalCount_buildItems tracking useSmallSize menu none, rfl, rfl, rfl⟩

/-- C9: when the pasteboard holds no data for the requested UTI,
`fetchDataFromClipboard` returns false and leaves the destination block
exactly as it was; the block is overwritten only on the branch returning
true. -/
theorem C9_fetch_miss_preserves_block (pb : Pasteboard) (memoryBlock : List UInt8)
    (typeUTI : String) (h : pb typeUTI = none) :
    fetchDataFromClipboard pb memoryBlock typeUTI = (false, memoryBlock) := by
  simp [fetchDataFromClipboard, h]

/-- Witness for C9: fetching from an empty pasteboard fails and the block
keeps its two bytes. -/
theorem C9_fetch_miss_preserves_block_witness :
    ((fun _ : String => (none : Option (List UInt8))) "com.example.data" = none)
  ∧ fetchDataFromClipboard (fun _ => none) [1, 2] "com.example.data" = (false, [1, 2]) :=
  ⟨rfl, C9_fetch_miss_preserves_block (fun _ => none) [1, 2] "com.example.data" rfl⟩

/-- C10: with `maxLength > 0` the limit is enforced only by the text-change
observer: the initial `currentText` is placed into the field untruncated, so
accepting the dialog without editing returns `currentText` even when it is
longer than `maxLength`; an edit event, by contrast, is truncated to
`maxLength` characters when longer. -/
theorem C10_initial_text_not_truncated (currentText : String) (maxLength : Int)
    (outText : String) (hmax : 0 < maxLength)
    (hlen : maxLength.toNat < currentText.length) :
    (showTextInputDialog currentText maxLength [] true outText = (true, currentText))
  ∧ (∀ e : String, maxLength.toNat < e.length →
      showTextInputDialog currentText maxLength [e] true outText
        = (true, e.take maxLength.toNat)) := by
  constructor
  · rfl
  · intro e he
    simp [showTextInputDialog, textFieldObserverStep, hmax, he]

/-- Witness for C10: `maxLength = 3` and a five-character initial text: the
accepted dialog returns the full text. -/
theorem C10_initial_text_not_truncated_witness :
    ((0 : Int) < 3)
  ∧ ((3 : Int).toNat < "abcde".length)
  ∧ (showTextInputDialog "abcde" 3 [] true "" = (true, "abcde")) :=
  ⟨by norm_num, by decide,
   (C10_initial_text_not_truncated "abcde" 3 "" (by norm_num) (by decide)).1⟩

end JuceNativeMacDialogs
